import Mathlib

/-!
Verification development for the Mr.Market snapshot-reconciliation pipeline.

The definitions below are a shallow embedding of the TypeScript sources:
 - src/server/src/modules/mixin/snapshots/snapshots.service.ts
 - src/server/src/modules/mixin/listeners/arbitrage.listener.ts
 - src/server/src/modules/mixin/listeners/market_making.listener.ts

Modelling conventions:
 - Decimal amount strings (handled in the source with BigNumber / passed through
   verbatim) are modelled as `Rat`, exact arbitrary-precision rationals.
 - `getRFC3339Timestamp()` wall-clock reads are modelled by an explicit
   `now : Nat` argument threaded into each handler invocation.
 - Database effects (SnapshotsRepository / StrategyUserService writes) are
   modelled as explicit state passing over `GlobalState`.
 - Asynchronous event emission (`this.events.emit`) followed by the listener
   running is modelled as a direct call of the listener body, i.e. the
   sequential semantics of one transfer being handled to completion.
-/

set_option linter.unusedVariables false

namespace MrMarket

/-- Embedding of the Mixin `SafeSnapshot` record (an incoming transfer) as seen
by the pipeline: the fields the source reads are `snapshot_id`, `opponent_id`
(the sender), `asset_id`, `amount` and the optional `memo`. -/
structure SafeSnapshot where
  snapshot_id : String
  opponent_id : String
  asset_id : String
  amount : Rat
  memo : Option String
  deriving DecidableEq, Repr

/-- Embedding of the `PaymentState` entity written by the listeners.
Optional second-leg fields are `Option`, matching the nullable columns and the
`!paymentState.secondAssetId` falsy check in the source. -/
structure PaymentState where
  orderId : String
  type : String
  symbol : String
  firstAssetId : String
  firstAssetAmount : Rat
  firstSnapshotId : String
  createdAt : Nat
  updatedAt : Nat
  secondAssetId : Option String
  secondAssetAmount : Option Rat
  secondSnapshotId : Option String
  deriving DecidableEq, Repr

/-- Embedding of the arbitrage order record built by
`ArbitrageListener.handleArbitrageCreate` via `createArbitrage`. -/
structure ArbitrageOrder where
  orderId : String
  userId : String
  pair : String
  amountToTrade : String
  minProfitability : String
  exchangeAName : String
  exchangeBName : String
  balanceA : Rat
  balanceB : Rat
  state : String
  createdAt : Nat
  deriving DecidableEq, Repr

/-- Embedding of the market-making order record built by
`MarketMakingListener.handleMarketMakingCreate` via `createMarketMaking`. -/
structure MarketMakingOrder where
  orderId : String
  userId : String
  pair : String
  state : String
  exchangeName : String
  bidSpread : String
  askSpread : String
  orderAmount : String
  orderRefreshTime : String
  numberOfLayers : String
  priceSourceType : String
  amountChangePerLayer : String
  amountChangeType : String
  ceilingPrice : String
  floorPrice : String
  balanceA : Rat
  balanceB : Rat
  createdAt : Nat
  deriving DecidableEq, Repr

/-- Embedding of `ArbitrageMemoDetails` (the decoded AR instruction). -/
structure ArbitrageMemoDetails where
  traceId : String
  symbol : String
  exchangeAName : String
  exchangeBName : String
  deriving DecidableEq, Repr

/-- Embedding of `MarketMakingMemoDetails` (the decoded MM instruction). -/
structure MarketMakingMemoDetails where
  traceId : String
  symbol : String
  exchangeName : String
  deriving DecidableEq, Repr

/-- Modelled from the spec: the decoded SP (spot) instruction.  The spot memo
details type lives in src/common/types/memo/memo which is not among the given
sources; per the spec a decoded instruction carries a trace ID and a pair
symbol, and none of its fields feed back into this pipeline. -/
structure SpotMemoDetails where
  traceId : String
  symbol : String
  deriving DecidableEq, Repr

/-- Record of one invocation of `SnapshotsService.refund(snapshot)`, which
forwards `(snapshot.opponent_id, snapshot.asset_id, snapshot.amount)` to
`sendMixinTx` (snapshots.service.ts lines 439-449). -/
structure RefundCall where
  opponent_id : String
  asset_id : String
  amount : Rat
  deriving DecidableEq, Repr

/-- The persistent state the pipeline reads and writes: payment states,
strategy orders and the snapshot (dedup) table, plus the observable outputs of
one run — refund invocations, emitted spot events and logged store errors. -/
structure GlobalState where
  paymentStates : List PaymentState
  arbitrageOrders : List ArbitrageOrder
  marketMakingOrders : List MarketMakingOrder
  snapshotsTable : List String
  refunds : List RefundCall
  spotEvents : List (SpotMemoDetails × SafeSnapshot)
  errorLogs : Nat
  deriving DecidableEq, Repr

/-- The empty initial state: no payment states, no orders, nothing archived. -/
def initState : GlobalState :=
  { paymentStates := []
    arbitrageOrders := []
    marketMakingOrders := []
    snapshotsTable := []
    refunds := []
    spotEvents := []
    errorLogs := 0 }

/-- Modelled from the spec: the Pair Registry behind `getAssetIDBySymbol`
(src/common/helpers/utils, not among the given sources) — a static map from a
pair symbol to `{baseAssetID, targetAssetID}`; an unknown symbol yields
undefined IDs, modelled as `none`. -/
abbrev AssetRegistry := String → Option String × Option String

/-- Embedding of `StrategyUserService.findPaymentStateByIdRaw`: look up the
payment state whose `orderId` equals the given trace ID. -/
def findPaymentStateByIdRaw (st : GlobalState) (id : String) :
    Option PaymentState :=
  st.paymentStates.find? (fun p => p.orderId == id)

/-- Modelled from the spec: `Store.putPaymentState` behind
`StrategyUserService.createPaymentState` — persist a new payment state. -/
def createPaymentState (st : GlobalState) (ps : PaymentState) : GlobalState :=
  { st with paymentStates := st.paymentStates ++ [ps] }

/-- Modelled from the spec: `Store.updatePaymentStateLeg2` behind
`StrategyUserService.updatePaymentStateById` — apply the given field update to
the payment state(s) keyed by the trace ID. -/
def updatePaymentStateById (st : GlobalState) (id : String)
    (upd : PaymentState → PaymentState) : GlobalState :=
  { st with
    paymentStates :=
      st.paymentStates.map (fun p => if p.orderId == id then upd p else p) }

/-- Modelled from the spec: `Store.createArbitrageOrder` behind
`StrategyUserService.createArbitrage` — persist a new arbitrage order. -/
def createArbitrage (st : GlobalState) (o : ArbitrageOrder) : GlobalState :=
  { st with arbitrageOrders := st.arbitrageOrders ++ [o] }

/-- Modelled from the spec: `Store.createMarketMakingOrder` behind
`StrategyUserService.createMarketMaking` — persist a new market-making
order. -/
def createMarketMaking (st : GlobalState) (o : MarketMakingOrder) :
    GlobalState :=
  { st with marketMakingOrders := st.marketMakingOrders ++ [o] }

/-- Record that `SnapshotsService.refund(snapshot)` was invoked for this
snapshot: the full `amount` of `asset_id` back to `opponent_id`
(snapshots.service.ts lines 439-449; the ledger-level body is modelled
separately as `sendMixinTx` below). -/
def refundCalled (st : GlobalState) (s : SafeSnapshot) : GlobalState :=
  { st with refunds := st.refunds ++ [⟨s.opponent_id, s.asset_id, s.amount⟩] }

/-- Embedding of `ArbitrageListener.handleArbitrageCreate`
(arbitrage.listener.ts lines 51-112): fetch the payment state for the trace
ID, refund on asset mismatch, create the leg-1 payment state when none exists,
otherwise fill leg 2 and create the arbitrage order. -/
def handleArbitrageCreate (reg : AssetRegistry) (now : Nat)
    (details : ArbitrageMemoDetails) (snapshot : SafeSnapshot)
    (st : GlobalState) : GlobalState :=
  let paymentState := findPaymentStateByIdRaw st details.traceId
  let ids := reg details.symbol
  if ids.1 ≠ some snapshot.asset_id ∧ ids.2 ≠ some snapshot.asset_id then
    refundCalled st snapshot
  else
    match paymentState with
    | none =>
        createPaymentState st
          { orderId := details.traceId
            type := "arbitrage"
            symbol := details.symbol
            firstAssetId := snapshot.asset_id
            firstAssetAmount := snapshot.amount
            firstSnapshotId := snapshot.snapshot_id
            createdAt := now
            updatedAt := now
            secondAssetId := none
            secondAssetAmount := none
            secondSnapshotId := none }
    | some ps =>
        if ps.secondAssetId = none then
          createArbitrage
            (updatePaymentStateById st details.traceId (fun p =>
              { p with
                secondAssetId := some snapshot.asset_id
                secondAssetAmount := some snapshot.amount
                secondSnapshotId := some snapshot.snapshot_id
                updatedAt := now }))
            { orderId := details.traceId
              userId := snapshot.opponent_id
              pair := details.symbol
              amountToTrade := "1"
              minProfitability := "0.01"
              exchangeAName := details.exchangeAName
              exchangeBName := details.exchangeBName
              balanceA := ps.firstAssetAmount
              balanceB := snapshot.amount
              state := "created"
              createdAt := now }
        else st

/-- Embedding of `MarketMakingListener.handleMarketMakingCreate`
(market_making.listener.ts lines 53-119), structured identically to the
arbitrage listener with the market-making default parameters. -/
def handleMarketMakingCreate (reg : AssetRegistry) (now : Nat)
    (details : MarketMakingMemoDetails) (snapshot : SafeSnapshot)
    (st : GlobalState) : GlobalState :=
  let paymentState := findPaymentStateByIdRaw st details.traceId
  let ids := reg details.symbol
  if ids.1 ≠ some snapshot.asset_id ∧ ids.2 ≠ some snapshot.asset_id then
    refundCalled st snapshot
  else
    match paymentState with
    | none =>
        createPaymentState st
          { orderId := details.traceId
            type := "market_making"
            symbol := details.symbol
            firstAssetId := snapshot.asset_id
            firstAssetAmount := snapshot.amount
            firstSnapshotId := snapshot.snapshot_id
            createdAt := now
            updatedAt := now
            secondAssetId := none
            secondAssetAmount := none
            secondSnapshotId := none }
    | some ps =>
        if ps.secondAssetId = none then
          createMarketMaking
            (updatePaymentStateById st details.traceId (fun p =>
              { p with
                secondAssetId := some snapshot.asset_id
                secondAssetAmount := some snapshot.amount
                secondSnapshotId := some snapshot.snapshot_id
                updatedAt := now }))
            { orderId := details.traceId
              userId := snapshot.opponent_id
              pair := details.symbol
              state := "created"
              exchangeName := details.exchangeName
              bidSpread := "0.1"
              askSpread := "0.1"
              orderAmount := "1"
              orderRefreshTime := "15000"
              numberOfLayers := "1"
              priceSourceType := "MID_PRICE"
              amountChangePerLayer := "1"
              amountChangeType := "percentage"
              ceilingPrice := "0"
              floorPrice := "0"
              balanceA := ps.firstAssetAmount
              balanceB := snapshot.amount
              createdAt := now }
        else st

/-- Value of one hex digit, or `none` for a non-hex character, as used by
node's `Buffer.from(memo, 'hex')`. -/
def hexVal (c : Char) : Option Nat :=
  if '0' ≤ c ∧ c ≤ '9' then some (c.toNat - 48)
  else if 'a' ≤ c ∧ c ≤ 'f' then some (c.toNat - 97 + 10)
  else if 'A' ≤ c ∧ c ≤ 'F' then some (c.toNat - 65 + 10)
  else none

/-- Embedding of `Buffer.from(str, 'hex')`: consume hex-digit pairs into bytes
and stop at the first invalid or incomplete pair, as node does. -/
def hexDecodeBytes : List Char → List Nat
  | c1 :: c2 :: rest =>
      match hexVal c1, hexVal c2 with
      | some h, some l => (16 * h + l) :: hexDecodeBytes rest
      | _, _ => []
  | _ => []

/-- Value of one base64 alphabet character, or `none` for a character outside
the alphabet (node's base64 decoder skips such characters). -/
def b64Val (c : Char) : Option Nat :=
  if 'A' ≤ c ∧ c ≤ 'Z' then some (c.toNat - 65)
  else if 'a' ≤ c ∧ c ≤ 'z' then some (c.toNat - 97 + 26)
  else if '0' ≤ c ∧ c ≤ '9' then some (c.toNat - 48 + 52)
  else if c = '+' then some 62
  else if c = '/' then some 63
  else none

/-- Reassemble bytes from base64 sextets: each full group of four sextets
yields three bytes; a trailing group of three yields two bytes and a trailing
group of two yields one byte, matching node's lenient base64 decoding. -/
def b64Bytes : List Nat → List Nat
  | a :: b :: c :: d :: rest =>
      (a * 4 + b / 16) :: ((b % 16) * 16 + c / 4) :: ((c % 4) * 64 + d) ::
        b64Bytes rest
  | [a, b, c] => [a * 4 + b / 16, (b % 16) * 16 + c / 4]
  | [a, b] => [a * 4 + b / 16]
  | _ => []

/-- Embedding of `Buffer.from(str, 'base64')`: drop characters outside the
base64 alphabet (including padding) and decode the sextet stream. -/
def base64DecodeBytes (cs : List Char) : List Nat :=
  b64Bytes (cs.filterMap b64Val)

/-- Render decoded bytes as a string (`.toString('utf-8')` in the source).
Each byte becomes one character; this is exact for the ASCII payloads the memo
contract uses. -/
def bytesToString (bs : List Nat) : String :=
  ⟨bs.map Char.ofNat⟩

/-- First stage of the memo pipeline in `handleSnapshot`:
`Buffer.from(snapshot.memo, 'hex').toString('utf-8')`. -/
def hexDecodedMemo (memo : String) : String :=
  bytesToString (hexDecodeBytes memo.data)

/-- Second stage of the memo pipeline in `handleSnapshot`:
`Buffer.from(hexDecoedMemo, 'base64').toString('utf-8')`. -/
def decodedMemoOf (memo : String) : String :=
  bytesToString (base64DecodeBytes (hexDecodedMemo memo).data)

/-- Modelled from the spec: the three per-kind memo parsers
(`decodeSpotMemo`, `decodeArbitrageMemo`, `decodeMarketMakingMemo` from
src/common/helpers/mixin/memo, not among the given sources).  The spec fixes
only their shape: a pure function from the decoded instruction string to the
parsed details, returning `None` on a parse failure, so they are carried as
opaque function parameters of the pipeline. -/
structure MemoDecoders where
  decodeSpotMemo : String → Option SpotMemoDetails
  decodeArbitrageMemo : String → Option ArbitrageMemoDetails
  decodeMarketMakingMemo : String → Option MarketMakingMemoDetails

/-- Embedding of `SnapshotsRepository.checkSnapshotExist`: is this snapshot ID
already recorded in the snapshots (dedup) table? -/
def checkSnapshotExist (st : GlobalState) (id : String) : Bool :=
  st.snapshotsTable.contains id

/-- Embedding of `SnapshotsService.createSnapshot` (snapshots.service.ts lines
122-128): try to persist the snapshot record; a repository failure (modelled
by `storeOk = false`) is caught and only logged, so the caller always
continues. -/
def createSnapshotSvc (storeOk : Bool) (st : GlobalState) (s : SafeSnapshot) :
    GlobalState :=
  if storeOk then { st with snapshotsTable := st.snapshotsTable ++ [s.snapshot_id] }
  else { st with errorLogs := st.errorLogs + 1 }

/-- Embedding of the `switch (tradingType)` block of
`SnapshotsService.handleSnapshot` (snapshots.service.ts lines 531-562): the
first 2 characters of the decoded memo select the instruction kind — `SP`
emits the spot-order-create event, `AR` and `MM` run the corresponding
listener — and a failed per-kind parse or an unrecognized prefix leaves the
state untouched (the refund in the default branch is commented out in the
source). -/
def dispatchMemo (reg : AssetRegistry) (decs : MemoDecoders) (now : Nat)
    (snapshot : SafeSnapshot) (st : GlobalState) (decodedMemo : String) :
    GlobalState :=
  let tradingType := decodedMemo.data.take 2
  if tradingType = "SP".data then
    match decs.decodeSpotMemo decodedMemo with
    | none => st
    | some d => { st with spotEvents := st.spotEvents ++ [(d, snapshot)] }
  else if tradingType = "AR".data then
    match decs.decodeArbitrageMemo decodedMemo with
    | none => st
    | some d => handleArbitrageCreate reg now d snapshot st
  else if tradingType = "MM".data then
    match decs.decodeMarketMakingMemo decodedMemo with
    | none => st
    | some d => handleMarketMakingCreate reg now d snapshot st
  else st

/-- Embedding of `SnapshotsService.handleSnapshot` (snapshots.service.ts lines
510-564): dedup check, archive-only on absent or empty memo, hex-then-base64
memo decode, dispatch on the 2-character prefix via `dispatchMemo`, and
finally archive the snapshot.  `storeOk` models whether the repository write
inside `createSnapshot` succeeds; the refund in the empty-memo branch is
commented out in the source and hence absent here. -/
def handleSnapshot (reg : AssetRegistry) (decs : MemoDecoders)
    (storeOk : Bool) (now : Nat) (snapshot : SafeSnapshot)
    (st : GlobalState) : GlobalState :=
  if checkSnapshotExist st snapshot.snapshot_id then st
  else
    match snapshot.memo with
    | none => createSnapshotSvc storeOk st snapshot
    | some m =>
      if m = "" then createSnapshotSvc storeOk st snapshot
      else
        createSnapshotSvc storeOk
          (dispatchMemo reg decs now snapshot st (decodedMemoOf m)) snapshot

/-- A transaction request submitted to the Mixin network by `sendMixinTx`;
only the recipient, asset and amount matter to the properties here. -/
structure TxRequest where
  opponent_id : String
  asset_id : String
  amount : Rat
  deriving DecidableEq, Repr

/-- State of the service's view of the Mixin ledger: its unspent outputs
(asset, amount) and the transactions it has submitted, plus logged errors. -/
structure MixinState where
  unspentOutputs : List (String × Rat)
  submitted : List TxRequest
  errorLogs : Nat
  deriving DecidableEq, Repr

/-- Embedding of `this.client.utxo.safeOutputs({asset, state: 'unspent'})`:
the unspent output amounts of one asset. -/
def safeOutputs (ms : MixinState) (asset : String) : List Rat :=
  ms.unspentOutputs.filterMap (fun p => if p.1 = asset then some p.2 else none)

/-- Embedding of the SDK's `getTotalBalanceFromOutputs`: sum of the output
amounts. -/
def getTotalBalanceFromOutputs (outs : List Rat) : Rat :=
  outs.foldl (fun a b => a + b) 0

/-- Embedding of `SnapshotsService.sendMixinTx` (snapshots.service.ts lines
369-437) at the level the claims need: fetch the unspent outputs of the asset,
and when their total balance is below the requested amount, log
`Insufficient fund` and `return;` — no transaction is built or submitted and
no error is thrown (the result is `none`, node's `undefined`).  Otherwise the
transaction is built, signed and submitted and the sequencer result is
returned. -/
def sendMixinTx (ms : MixinState) (opponent_id : String) (asset_id : String)
    (amount : Rat) : MixinState × Option (List TxRequest) :=
  let balance := getTotalBalanceFromOutputs (safeOutputs ms asset_id)
  if balance < amount then
    ({ ms with errorLogs := ms.errorLogs + 1 }, none)
  else
    ({ ms with submitted := ms.submitted ++ [⟨opponent_id, asset_id, amount⟩] },
      some [⟨opponent_id, asset_id, amount⟩])

/-- Embedding of `SnapshotsService.refund` (snapshots.service.ts lines
439-449): forward the snapshot's opponent, asset and full amount to
`sendMixinTx`, discard its return value, and swallow any thrown error. -/
def refund (ms : MixinState) (s : SafeSnapshot) : MixinState :=
  (sendMixinTx ms s.opponent_id s.asset_id s.amount).1

/-- Outcome of one invocation of `fetchAndProcessSnapshots`: the value the
function returns and the per-snapshot handlers that are still pending at the
moment it returns. -/
structure CycleOutcome where
  returned : Option (List SafeSnapshot)
  pendingHandlers : List SafeSnapshot
  deriving DecidableEq, Repr

/-- Embedding of `SnapshotsService.fetchAndProcessSnapshots`
(snapshots.service.ts lines 130-144) at the level of the node event loop.
The body runs `snapshots.forEach(async (snapshot) => { await
this.handleSnapshot(snapshot); })`: each async callback suspends at the first
`await` inside `handleSnapshot` (the `checkSnapshotExist` repository call) and
`forEach` neither collects nor awaits the promises it creates, so when the
function returns the whole batch is still pending.  A `none` batch is the
`if (!snapshots)` early-return branch. -/
def fetchAndProcessSnapshots (batch : Option (List SafeSnapshot)) :
    CycleOutcome :=
  match batch with
  | none => { returned := none, pendingHandlers := [] }
  | some l => { returned := some l, pendingHandlers := l }

/-- Embedding of one tick of the cron driver `handleSnapshots`
(snapshots.service.ts lines 566-574) over the pending-handler queue: when
`enableCron` holds the tick awaits `fetchAndProcessSnapshots` — which resolves
as soon as the batch has been iterated — and the method has no in-progress
flag or queue, so the handlers already pending from earlier cycles simply
accumulate next to the new cycle's. -/
def handleSnapshotsTick (enableCron : Bool) (pending : List SafeSnapshot)
    (batch : Option (List SafeSnapshot)) : List SafeSnapshot :=
  if enableCron then pending ++ (fetchAndProcessSnapshots batch).pendingHandlers
  else pending

/-- One pipeline event: a decoded arbitrage or market-making instruction
reaching its listener, or a raw snapshot entering `handleSnapshot`. -/
inductive Step where
  | arb (now : Nat) (d : ArbitrageMemoDetails) (s : SafeSnapshot)
  | mm (now : Nat) (d : MarketMakingMemoDetails) (s : SafeSnapshot)
  | snap (storeOk : Bool) (now : Nat) (s : SafeSnapshot)

/-- Interpret one `Step` as the corresponding handler invocation. -/
def applyStep (reg : AssetRegistry) (decs : MemoDecoders) :
    Step → GlobalState → GlobalState
  | .arb now d s, st => handleArbitrageCreate reg now d s st
  | .mm now d s, st => handleMarketMakingCreate reg now d s st
  | .snap storeOk now s, st => handleSnapshot reg decs storeOk now s st

/-- Run a sequence of pipeline events from a starting state. -/
def runSteps (reg : AssetRegistry) (decs : MemoDecoders) (steps : List Step)
    (st : GlobalState) : GlobalState :=
  steps.foldl (fun acc e => applyStep reg decs e acc) st

/-- Number of strategy orders (arbitrage or market-making) recorded for one
trace ID. -/
def ordersFor (st : GlobalState) (T : String) : Nat :=
  st.arbitrageOrders.countP (fun o => o.orderId == T) +
    st.marketMakingOrders.countP (fun o => o.orderId == T)

/-- Reconciliation invariant: every trace ID has at most one strategy order,
and a trace ID with an order has a payment state whose second leg is set. -/
def OrderInv (st : GlobalState) : Prop :=
  ∀ T : String,
    ordersFor st T ≤ 1 ∧
      (1 ≤ ordersFor st T →
        ∃ ps, findPaymentStateByIdRaw st T = some ps ∧
          ps.secondAssetId.isSome = true)

/-- The transfer's asset is one of the two sides of the instruction's pair:
the negation of the refund condition in both listeners. -/
abbrev assetMatches (reg : AssetRegistry) (symbol asset_id : String) : Prop :=
  (reg symbol).1 = some asset_id ∨ (reg symbol).2 = some asset_id

/-- Concrete pair registry used by the witnesses: one known symbol. -/
def sampleReg : AssetRegistry := fun sym =>
  if sym = "BTC/USDT" then (some "btc-id", some "usdt-id") else (none, none)

/-- Concrete memo parsers used by the witnesses. -/
def sampleDecs : MemoDecoders :=
  { decodeSpotMemo := fun m =>
      if m = "SPtest" then some ⟨"trace-sp", "BTC/USDT"⟩ else none
    decodeArbitrageMemo := fun m =>
      if m = "ARtest" then some ⟨"trace-ar", "BTC/USDT", "binance", "okx"⟩
      else none
    decodeMarketMakingMemo := fun m =>
      if m = "MMtest" then some ⟨"trace-mm", "BTC/USDT", "okx"⟩ else none }

/-- Concrete decoded arbitrage instruction used by the witnesses. -/
def sampleArbDetails : ArbitrageMemoDetails :=
  ⟨"trace-ar", "BTC/USDT", "binance", "okx"⟩

/-- Concrete decoded market-making instruction used by the witnesses. -/
def sampleMMDetails : MarketMakingMemoDetails :=
  ⟨"trace-mm", "BTC/USDT", "okx"⟩

/-- Concrete first-leg transfer: 1 BTC, memo hex-of-base64 of `ARtest`. -/
def sampleSnapBtc : SafeSnapshot :=
  { snapshot_id := "snap-1"
    opponent_id := "user-1"
    asset_id := "btc-id"
    amount := 1
    memo := some "51564a305a584e30" }

/-- Concrete second-leg transfer: 2500 USDT for the same trace. -/
def sampleSnapUsdt : SafeSnapshot :=
  { snapshot_id := "snap-2"
    opponent_id := "user-1"
    asset_id := "usdt-id"
    amount := 2500
    memo := some "51564a305a584e30" }

/-- Concrete mismatched transfer: 5 ETH against a BTC/USDT instruction. -/
def sampleSnapEth : SafeSnapshot :=
  { snapshot_id := "snap-3"
    opponent_id := "user-1"
    asset_id := "eth-id"
    amount := 5
    memo := some "51564a305a584e30" }

/-- Concrete market-making transfer, memo hex-of-base64 of `MMtest`. -/
def sampleSnapMM : SafeSnapshot :=
  { snapshot_id := "snap-4"
    opponent_id := "user-2"
    asset_id := "usdt-id"
    amount := 7
    memo := some "545531305a584e30" }

/-- Concrete transfer whose memo decodes to the unknown prefix `XXtest`. -/
def sampleSnapUnknown : SafeSnapshot :=
  { snapshot_id := "snap-5"
    opponent_id := "user-3"
    asset_id := "btc-id"
    amount := 3
    memo := some "574668305a584e30" }

/-- Concrete payment state with both legs filled, used by the witnesses. -/
def sampleCompletePS : PaymentState :=
  { orderId := "trace-ar"
    type := "arbitrage"
    symbol := "BTC/USDT"
    firstAssetId := "btc-id"
    firstAssetAmount := 1
    firstSnapshotId := "snap-1"
    createdAt := 0
    updatedAt := 1
    secondAssetId := some "usdt-id"
    secondAssetAmount := some 2500
    secondSnapshotId := some "snap-2"}

/-- Concrete state holding the completed payment state. -/
def sampleCompleteState : GlobalState :=
  { initState with paymentStates := [sampleCompletePS] }

/-- Concrete second transfer in the same asset as `sampleSnapBtc`. -/
def sampleSnapBtc2 : SafeSnapshot :=
  { snapshot_id := "snap-6"
    opponent_id := "user-9"
    asset_id := "btc-id"
    amount := 2
    memo := some "51564a305a584e30" }

/-- Concrete ledger with no unspent outputs at all, so any positive refund
amount exceeds the available balance. -/
def sampleEmptyLedger : MixinState :=
  { unspentOutputs := []
    submitted := []
    errorLogs := 0 }

/-- Concrete payment state awaiting its second leg. -/
def sampleIncompletePS : PaymentState :=
  { orderId := "trace-ar"
    type := "arbitrage"
    symbol := "BTC/USDT"
    firstAssetId := "btc-id"
    firstAssetAmount := 1
    firstSnapshotId := "snap-1"
    createdAt := 0
    updatedAt := 0
    secondAssetId := none
    secondAssetAmount := none
    secondSnapshotId := none }

/-- Concrete state holding the payment state awaiting its second leg. -/
def sampleIncompleteState : GlobalState :=
  { initState with paymentStates := [sampleIncompletePS] }

theorem handleArb_mismatch (reg : AssetRegistry) (now : Nat)
    (d : ArbitrageMemoDetails) (s : SafeSnapshot) (st : GlobalState)
    (h1 : (reg d.symbol).1 ≠ some s.asset_id)
    (h2 : (reg d.symbol).2 ≠ some s.asset_id) :
    handleArbitrageCreate reg now d s st = refundCalled st s := by
  simp only [handleArbitrageCreate]
  rw [if_pos ⟨h1, h2⟩]

theorem handleMM_mismatch (reg : AssetRegistry) (now : Nat)
    (d : MarketMakingMemoDetails) (s : SafeSnapshot) (st : GlobalState)
    (h1 : (reg d.symbol).1 ≠ some s.asset_id)
    (h2 : (reg d.symbol).2 ≠ some s.asset_id) :
    handleMarketMakingCreate reg now d s st = refundCalled st s := by
  simp only [handleMarketMakingCreate]
  rw [if_pos ⟨h1, h2⟩]

theorem handleArb_leg1 (reg : AssetRegistry) (now : Nat)
    (d : ArbitrageMemoDetails) (s : SafeSnapshot) (st : GlobalState)
    (hv : assetMatches reg d.symbol s.asset_id)
    (hfind : findPaymentStateByIdRaw st d.traceId = none) :
    handleArbitrageCreate reg now d s st =
      createPaymentState st
        { orderId := d.traceId
          type := "arbitrage"
          symbol := d.symbol
          firstAssetId := s.asset_id
          firstAssetAmount := s.amount
          firstSnapshotId := s.snapshot_id
          createdAt := now
          updatedAt := now
          secondAssetId := none
          secondAssetAmount := none
          secondSnapshotId := none } := by
  have hcond : ¬((reg d.symbol).1 ≠ some s.asset_id ∧
      (reg d.symbol).2 ≠ some s.asset_id) := fun h => hv.elim h.1 h.2
  simp only [handleArbitrageCreate, hfind]
  rw [if_neg hcond]

theorem handleMM_leg1 (reg : AssetRegistry) (now : Nat)
    (d : MarketMakingMemoDetails) (s : SafeSnapshot) (st : GlobalState)
    (hv : assetMatches reg d.symbol s.asset_id)
    (hfind : findPaymentStateByIdRaw st d.traceId = none) :
    handleMarketMakingCreate reg now d s st =
      createPaymentState st
        { orderId := d.traceId
          type := "market_making"
          symbol := d.symbol
          firstAssetId := s.asset_id
          firstAssetAmount := s.amount
          firstSnapshotId := s.snapshot_id
          createdAt := now
          updatedAt := now
          secondAssetId := none
          secondAssetAmount := none
          secondSnapshotId := none } := by
  have hcond : ¬((reg d.symbol).1 ≠ some s.asset_id ∧
      (reg d.symbol).2 ≠ some s.asset_id) := fun h => hv.elim h.1 h.2
  simp only [handleMarketMakingCreate, hfind]
  rw [if_neg hcond]

theorem handleArb_leg2 (reg : AssetRegistry) (now : Nat)
    (d : ArbitrageMemoDetails) (s : SafeSnapshot) (st : GlobalState)
    (ps : PaymentState)
    (hv : assetMatches reg d.symbol s.asset_id)
    (hfind : findPaymentStateByIdRaw st d.traceId = some ps)
    (hsec : ps.secondAssetId = none) :
    handleArbitrageCreate reg now d s st =
      createArbitrage
        (updatePaymentStateById st d.traceId (fun p =>
          { p with
            secondAssetId := some s.asset_id
            secondAssetAmount := some s.amount
            secondSnapshotId := some s.snapshot_id
            updatedAt := now }))
        { orderId := d.traceId
          userId := s.opponent_id
          pair := d.symbol
          amountToTrade := "1"
          minProfitability := "0.01"
          exchangeAName := d.exchangeAName
          exchangeBName := d.exchangeBName
          balanceA := ps.firstAssetAmount
          balanceB := s.amount
          state := "created"
          createdAt := now } := by
  have hcond : ¬((reg d.symbol).1 ≠ some s.asset_id ∧
      (reg d.symbol).2 ≠ some s.asset_id) := fun h => hv.elim h.1 h.2
  simp only [handleArbitrageCreate, hfind, hsec]
  rw [if_neg hcond]
  simp

theorem handleMM_leg2 (reg : AssetRegistry) (now : Nat)
    (d : MarketMakingMemoDetails) (s : SafeSnapshot) (st : GlobalState)
    (ps : PaymentState)
    (hv : assetMatches reg d.symbol s.asset_id)
    (hfind : findPaymentStateByIdRaw st d.traceId = some ps)
    (hsec : ps.secondAssetId = none) :
    handleMarketMakingCreate reg now d s st =
      createMarketMaking
        (updatePaymentStateById st d.traceId (fun p =>
          { p with
            secondAssetId := some s.asset_id
            secondAssetAmount := some s.amount
            secondSnapshotId := some s.snapshot_id
            updatedAt := now }))
        { orderId := d.traceId
          userId := s.opponent_id
          pair := d.symbol
          state := "created"
          exchangeName := d.exchangeName
          bidSpread := "0.1"
          askSpread := "0.1"
          orderAmount := "1"
          orderRefreshTime := "15000"
          numberOfLayers := "1"
          priceSourceType := "MID_PRICE"
          amountChangePerLayer := "1"
          amountChangeType := "percentage"
          ceilingPrice := "0"
          floorPrice := "0"
          balanceA := ps.firstAssetAmount
          balanceB := s.amount
          createdAt := now } := by
  have hcond : ¬((reg d.symbol).1 ≠ some s.asset_id ∧
      (reg d.symbol).2 ≠ some s.asset_id) := fun h => hv.elim h.1 h.2
  simp only [handleMarketMakingCreate, hfind, hsec]
  rw [if_neg hcond]
  simp

theorem handleArb_complete (reg : AssetRegistry) (now : Nat)
    (d : ArbitrageMemoDetails) (s : SafeSnapshot) (st : GlobalState)
    (ps : PaymentState)
    (hv : assetMatches reg d.symbol s.asset_id)
    (hfind : findPaymentStateByIdRaw st d.traceId = some ps)
    (hsec : ps.secondAssetId ≠ none) :
    handleArbitrageCreate reg now d s st = st := by
  have hcond : ¬((reg d.symbol).1 ≠ some s.asset_id ∧
      (reg d.symbol).2 ≠ some s.asset_id) := fun h => hv.elim h.1 h.2
  simp only [handleArbitrageCreate, hfind]
  rw [if_neg hcond]
  simp [hsec]

theorem handleMM_complete (reg : AssetRegistry) (now : Nat)
    (d : MarketMakingMemoDetails) (s : SafeSnapshot) (st : GlobalState)
    (ps : PaymentState)
    (hv : assetMatches reg d.symbol s.asset_id)
    (hfind : findPaymentStateByIdRaw st d.traceId = some ps)
    (hsec : ps.secondAssetId ≠ none) :
    handleMarketMakingCreate reg now d s st = st := by
  have hcond : ¬((reg d.symbol).1 ≠ some s.asset_id ∧
      (reg d.symbol).2 ≠ some s.asset_id) := fun h => hv.elim h.1 h.2
  simp only [handleMarketMakingCreate, hfind]
  rw [if_neg hcond]
  simp [hsec]

/-- C3: a transfer carrying a decoded instruction whose asset matches neither
the base nor the target asset of the instruction's pair is refunded — the full
amount of that asset back to the transfer's sender — while the payment states,
both order tables and everything else are left unchanged (the resulting state
differs from the input state only by the recorded refund), for both the
arbitrage and the market-making listener. -/
theorem assetMismatchRefundsInFull (reg : AssetRegistry) :
    (∀ (now : Nat) (d : ArbitrageMemoDetails) (s : SafeSnapshot)
        (st : GlobalState),
        (reg d.symbol).1 ≠ some s.asset_id →
        (reg d.symbol).2 ≠ some s.asset_id →
        handleArbitrageCreate reg now d s st =
          { st with
            refunds :=
              st.refunds ++ [⟨s.opponent_id, s.asset_id, s.amount⟩] }) ∧
    (∀ (now : Nat) (d : MarketMakingMemoDetails) (s : SafeSnapshot)
        (st : GlobalState),
        (reg d.symbol).1 ≠ some s.asset_id →
        (reg d.symbol).2 ≠ some s.asset_id →
        handleMarketMakingCreate reg now d s st =
          { st with
            refunds :=
              st.refunds ++ [⟨s.opponent_id, s.asset_id, s.amount⟩] }) := by
  constructor
  · intro now d s st h1 h2
    rw [handleArb_mismatch reg now d s st h1 h2]
    rfl
  · intro now d s st h1 h2
    rw [handleMM_mismatch reg now d s st h1 h2]
    rfl

/-- Witness for C3 at a concrete input: an ETH transfer against a BTC/USDT
arbitrage instruction is refunded in full and nothing else changes. -/
theorem assetMismatchRefundsInFull_witness :
    (sampleReg sampleArbDetails.symbol).1 ≠ some sampleSnapEth.asset_id ∧
    (sampleReg sampleArbDetails.symbol).2 ≠ some sampleSnapEth.asset_id ∧
    handleArbitrageCreate sampleReg 0 sampleArbDetails sampleSnapEth
        initState =
      { initState with
        refunds :=
          initState.refunds ++
            [⟨sampleSnapEth.opponent_id, sampleSnapEth.asset_id,
              sampleSnapEth.amount⟩] } :=
  ⟨by decide, by decide,
    (assetMismatchRefundsInFull sampleReg).1 0 sampleArbDetails sampleSnapEth
      initState (by decide) (by decide)⟩

/-- C2: for a valid transfer (asset on the instruction's pair) with trace ID
`T` — when no payment state exists for `T`, a new payment state is created
whose leg-1 fields (first asset, amount, snapshot ID) come from this transfer,
with both timestamps set to the processing time, and no order is created; when
a payment state exists with the second leg unset, the leg-2 fields are filled
from this transfer and a strategy order of the matching kind is created in
state `created` carrying both leg amounts (`balanceA` from leg 1, `balanceB`
from this transfer). -/
theorem paymentStateLifecycle (reg : AssetRegistry) :
    (∀ (now : Nat) (d : ArbitrageMemoDetails) (s : SafeSnapshot)
        (st : GlobalState),
        assetMatches reg d.symbol s.asset_id →
        findPaymentStateByIdRaw st d.traceId = none →
        handleArbitrageCreate reg now d s st =
          { st with
            paymentStates :=
              st.paymentStates ++
                [{ orderId := d.traceId
                   type := "arbitrage"
                   symbol := d.symbol
                   firstAssetId := s.asset_id
                   firstAssetAmount := s.amount
                   firstSnapshotId := s.snapshot_id
                   createdAt := now
                   updatedAt := now
                   secondAssetId := none
                   secondAssetAmount := none
                   secondSnapshotId := none }] }) ∧
    (∀ (now : Nat) (d : MarketMakingMemoDetails) (s : SafeSnapshot)
        (st : GlobalState),
        assetMatches reg d.symbol s.asset_id →
        findPaymentStateByIdRaw st d.traceId = none →
        handleMarketMakingCreate reg now d s st =
          { st with
            paymentStates :=
              st.paymentStates ++
                [{ orderId := d.traceId
                   type := "market_making"
                   symbol := d.symbol
                   firstAssetId := s.asset_id
                   firstAssetAmount := s.amount
                   firstSnapshotId := s.snapshot_id
                   createdAt := now
                   updatedAt := now
                   secondAssetId := none
                   secondAssetAmount := none
                   secondSnapshotId := none }] }) ∧
    (∀ (now : Nat) (d : ArbitrageMemoDetails) (s : SafeSnapshot)
        (st : GlobalState) (ps : PaymentState),
        assetMatches reg d.symbol s.asset_id →
        findPaymentStateByIdRaw st d.traceId = some ps →
        ps.secondAssetId = none →
        handleArbitrageCreate reg now d s st =
          { st with
            paymentStates :=
              st.paymentStates.map (fun p =>
                if p.orderId == d.traceId then
                  { p with
                    secondAssetId := some s.asset_id
                    secondAssetAmount := some s.amount
                    secondSnapshotId := some s.snapshot_id
                    updatedAt := now }
                else p)
            arbitrageOrders :=
              st.arbitrageOrders ++
                [{ orderId := d.traceId
                   userId := s.opponent_id
                   pair := d.symbol
                   amountToTrade := "1"
                   minProfitability := "0.01"
                   exchangeAName := d.exchangeAName
                   exchangeBName := d.exchangeBName
                   balanceA := ps.firstAssetAmount
                   balanceB := s.amount
                   state := "created"
                   createdAt := now }] }) ∧
    (∀ (now : Nat) (d : MarketMakingMemoDetails) (s : SafeSnapshot)
        (st : GlobalState) (ps : PaymentState),
        assetMatches reg d.symbol s.asset_id →
        findPaymentStateByIdRaw st d.traceId = some ps →
        ps.secondAssetId = none →
        handleMarketMakingCreate reg now d s st =
          { st with
            paymentStates :=
              st.paymentStates.map (fun p =>
                if p.orderId == d.traceId then
                  { p with
                    secondAssetId := some s.asset_id
                    secondAssetAmount := some s.amount
                    secondSnapshotId := some s.snapshot_id
                    updatedAt := now }
                else p)
            marketMakingOrders :=
              st.marketMakingOrders ++
                [{ orderId := d.traceId
                   userId := s.opponent_id
                   pair := d.symbol
                   state := "created"
                   exchangeName := d.exchangeName
                   bidSpread := "0.1"
                   askSpread := "0.1"
                   orderAmount := "1"
                   orderRefreshTime := "15000"
                   numberOfLayers := "1"
                   priceSourceType := "MID_PRICE"
                   amountChangePerLayer := "1"
                   amountChangeType := "percentage"
                   ceilingPrice := "0"
                   floorPrice := "0"
                   balanceA := ps.firstAssetAmount
                   balanceB := s.amount
                   createdAt := now }] }) := by
  refine ⟨?_, ?_, ?_, ?_⟩
  · intro now d s st hv hfind
    rw [handleArb_leg1 reg now d s st hv hfind]
    rfl
  · intro now d s st hv hfind
    rw [handleMM_leg1 reg now d s st hv hfind]
    rfl
  · intro now d s st ps hv hfind hsec
    rw [handleArb_leg2 reg now d s st ps hv hfind hsec]
    rfl
  · intro now d s st ps hv hfind hsec
    rw [handleMM_leg2 reg now d s st ps hv hfind hsec]
    rfl

/-- Witness for C2 at concrete inputs: the first BTC transfer creates the
leg-1 payment state for its trace ID, and the USDT transfer against the
half-filled payment state fills leg 2 and creates the arbitrage order. -/
theorem paymentStateLifecycle_witness :
    assetMatches sampleReg sampleArbDetails.symbol sampleSnapBtc.asset_id ∧
    findPaymentStateByIdRaw initState sampleArbDetails.traceId = none ∧
    handleArbitrageCreate sampleReg 0 sampleArbDetails sampleSnapBtc
        initState =
      { initState with
        paymentStates :=
          initState.paymentStates ++
            [{ orderId := sampleArbDetails.traceId
               type := "arbitrage"
               symbol := sampleArbDetails.symbol
               firstAssetId := sampleSnapBtc.asset_id
               firstAssetAmount := sampleSnapBtc.amount
               firstSnapshotId := sampleSnapBtc.snapshot_id
               createdAt := 0
               updatedAt := 0
               secondAssetId := none
               secondAssetAmount := none
               secondSnapshotId := none }] } ∧
    findPaymentStateByIdRaw sampleIncompleteState sampleArbDetails.traceId =
      some sampleIncompletePS ∧
    handleArbitrageCreate sampleReg 1 sampleArbDetails sampleSnapUsdt
        sampleIncompleteState =
      { sampleIncompleteState with
        paymentStates :=
          sampleIncompleteState.paymentStates.map (fun p =>
            if p.orderId == sampleArbDetails.traceId then
              { p with
                secondAssetId := some sampleSnapUsdt.asset_id
                secondAssetAmount := some sampleSnapUsdt.amount
                secondSnapshotId := some sampleSnapUsdt.snapshot_id
                updatedAt := 1 }
            else p)
        arbitrageOrders :=
          sampleIncompleteState.arbitrageOrders ++
            [{ orderId := sampleArbDetails.traceId
               userId := sampleSnapUsdt.opponent_id
               pair := sampleArbDetails.symbol
               amountToTrade := "1"
               minProfitability := "0.01"
               exchangeAName := sampleArbDetails.exchangeAName
               exchangeBName := sampleArbDetails.exchangeBName
               balanceA := sampleIncompletePS.firstAssetAmount
               balanceB := sampleSnapUsdt.amount
               state := "created"
               createdAt := 1 }] } :=
  ⟨Or.inl (by decide), by decide,
    (paymentStateLifecycle sampleReg).1 0 sampleArbDetails sampleSnapBtc
      initState (Or.inl (by decide)) (by decide),
    by decide,
    (paymentStateLifecycle sampleReg).2.2.1 1 sampleArbDetails sampleSnapUsdt
      sampleIncompleteState sampleIncompletePS (Or.inr (by decide)) (by decide)
      (by decide)⟩

theorem findPaymentState_create (st : GlobalState) (ps : PaymentState)
    (T : String) (h0 : findPaymentStateByIdRaw st T = none)
    (hid : ps.orderId = T) :
    findPaymentStateByIdRaw (createPaymentState st ps) T = some ps := by
  simp only [findPaymentStateByIdRaw, createPaymentState] at h0 ⊢
  rw [List.find?_append, h0]
  simp [hid]

theorem arb_seq (reg : AssetRegistry) (n1 n2 : Nat)
    (d : ArbitrageMemoDetails) (s1 s2 : SafeSnapshot) (st : GlobalState)
    (h0 : findPaymentStateByIdRaw st d.traceId = none)
    (h1 : assetMatches reg d.symbol s1.asset_id)
    (h2 : assetMatches reg d.symbol s2.asset_id) :
    handleArbitrageCreate reg n2 d s2 (handleArbitrageCreate reg n1 d s1 st) =
      createArbitrage
        (updatePaymentStateById
          (createPaymentState st
            { orderId := d.traceId
              type := "arbitrage"
              symbol := d.symbol
              firstAssetId := s1.asset_id
              firstAssetAmount := s1.amount
              firstSnapshotId := s1.snapshot_id
              createdAt := n1
              updatedAt := n1
              secondAssetId := none
              secondAssetAmount := none
              secondSnapshotId := none })
          d.traceId (fun p =>
            { p with
              secondAssetId := some s2.asset_id
              secondAssetAmount := some s2.amount
              secondSnapshotId := some s2.snapshot_id
              updatedAt := n2 }))
        { orderId := d.traceId
          userId := s2.opponent_id
          pair := d.symbol
          amountToTrade := "1"
          minProfitability := "0.01"
          exchangeAName := d.exchangeAName
          exchangeBName := d.exchangeBName
          balanceA := s1.amount
          balanceB := s2.amount
          state := "created"
          createdAt := n2 } := by
  rw [handleArb_leg1 reg n1 d s1 st h1 h0]
  exact handleArb_leg2 reg n2 d s2 _ _ h2
    (findPaymentState_create st _ d.traceId h0 rfl) rfl

theorem mm_seq (reg : AssetRegistry) (n1 n2 : Nat)
    (d : MarketMakingMemoDetails) (s1 s2 : SafeSnapshot) (st : GlobalState)
    (h0 : findPaymentStateByIdRaw st d.traceId = none)
    (h1 : assetMatches reg d.symbol s1.asset_id)
    (h2 : assetMatches reg d.symbol s2.asset_id) :
    handleMarketMakingCreate reg n2 d s2
        (handleMarketMakingCreate reg n1 d s1 st) =
      createMarketMaking
        (updatePaymentStateById
          (createPaymentState st
            { orderId := d.traceId
              type := "market_making"
              symbol := d.symbol
              firstAssetId := s1.asset_id
              firstAssetAmount := s1.amount
              firstSnapshotId := s1.snapshot_id
              createdAt := n1
              updatedAt := n1
              secondAssetId := none
              secondAssetAmount := none
              secondSnapshotId := none })
          d.traceId (fun p =>
            { p with
              secondAssetId := some s2.asset_id
              secondAssetAmount := some s2.amount
              secondSnapshotId := some s2.snapshot_id
              updatedAt := n2 }))
        { orderId := d.traceId
          userId := s2.opponent_id
          pair := d.symbol
          state := "created"
          exchangeName := d.exchangeName
          bidSpread := "0.1"
          askSpread := "0.1"
          orderAmount := "1"
          orderRefreshTime := "15000"
          numberOfLayers := "1"
          priceSourceType := "MID_PRICE"
          amountChangePerLayer := "1"
          amountChangeType := "percentage"
          ceilingPrice := "0"
          floorPrice := "0"
          balanceA := s1.amount
          balanceB := s2.amount
          createdAt := n2 } := by
  rw [handleMM_leg1 reg n1 d s1 st h1 h0]
  exact handleMM_leg2 reg n2 d s2 _ _ h2
    (findPaymentState_create st _ d.traceId h0 rfl) rfl

/-- C6: for two valid transfers with the same trace ID processed one after the
other, the created order's `balanceA` is the amount of whichever transfer was
recorded first and `balanceB` the amount of the second one, in both arrival
orders and for both listeners. -/
theorem legOrderingInvariance (reg : AssetRegistry) (n1 n2 : Nat)
    (d : ArbitrageMemoDetails) (e : MarketMakingMemoDetails)
    (s1 s2 : SafeSnapshot) (st : GlobalState)
    (hA0 : findPaymentStateByIdRaw st d.traceId = none)
    (hA1 : assetMatches reg d.symbol s1.asset_id)
    (hA2 : assetMatches reg d.symbol s2.asset_id)
    (hM0 : findPaymentStateByIdRaw st e.traceId = none)
    (hM1 : assetMatches reg e.symbol s1.asset_id)
    (hM2 : assetMatches reg e.symbol s2.asset_id) :
    ((handleArbitrageCreate reg n2 d s2
        (handleArbitrageCreate reg n1 d s1 st)).arbitrageOrders =
      st.arbitrageOrders ++
        [⟨d.traceId, s2.opponent_id, d.symbol, "1", "0.01", d.exchangeAName,
          d.exchangeBName, s1.amount, s2.amount, "created", n2⟩]) ∧
    ((handleArbitrageCreate reg n2 d s1
        (handleArbitrageCreate reg n1 d s2 st)).arbitrageOrders =
      st.arbitrageOrders ++
        [⟨d.traceId, s1.opponent_id, d.symbol, "1", "0.01", d.exchangeAName,
          d.exchangeBName, s2.amount, s1.amount, "created", n2⟩]) ∧
    ((handleMarketMakingCreate reg n2 e s2
        (handleMarketMakingCreate reg n1 e s1 st)).marketMakingOrders =
      st.marketMakingOrders ++
        [⟨e.traceId, s2.opponent_id, e.symbol, "created", e.exchangeName,
          "0.1", "0.1", "1", "15000", "1", "MID_PRICE", "1", "percentage",
          "0", "0", s1.amount, s2.amount, n2⟩]) ∧
    ((handleMarketMakingCreate reg n2 e s1
        (handleMarketMakingCreate reg n1 e s2 st)).marketMakingOrders =
      st.marketMakingOrders ++
        [⟨e.traceId, s1.opponent_id, e.symbol, "created", e.exchangeName,
          "0.1", "0.1", "1", "15000", "1", "MID_PRICE", "1", "percentage",
          "0", "0", s2.amount, s1.amount, n2⟩]) := by
  refine ⟨?_, ?_, ?_, ?_⟩
  · rw [arb_seq reg n1 n2 d s1 s2 st hA0 hA1 hA2]
    rfl
  · rw [arb_seq reg n1 n2 d s2 s1 st hA0 hA2 hA1]
    rfl
  · rw [mm_seq reg n1 n2 e s1 s2 st hM0 hM1 hM2]
    rfl
  · rw [mm_seq reg n1 n2 e s2 s1 st hM0 hM2 hM1]
    rfl

/-- Witness for C6 at concrete inputs: BTC then USDT gives
`balanceA = 1, balanceB = 2500`; USDT then BTC gives the swap. -/
theorem legOrderingInvariance_witness :
    ((handleArbitrageCreate sampleReg 1 sampleArbDetails sampleSnapUsdt
        (handleArbitrageCreate sampleReg 0 sampleArbDetails sampleSnapBtc
          initState)).arbitrageOrders =
      initState.arbitrageOrders ++
        [⟨sampleArbDetails.traceId, sampleSnapUsdt.opponent_id,
          sampleArbDetails.symbol, "1", "0.01",
          sampleArbDetails.exchangeAName, sampleArbDetails.exchangeBName,
          sampleSnapBtc.amount, sampleSnapUsdt.amount, "created", 1⟩]) ∧
    ((handleArbitrageCreate sampleReg 1 sampleArbDetails sampleSnapBtc
        (handleArbitrageCreate sampleReg 0 sampleArbDetails sampleSnapUsdt
          initState)).arbitrageOrders =
      initState.arbitrageOrders ++
        [⟨sampleArbDetails.traceId, sampleSnapBtc.opponent_id,
          sampleArbDetails.symbol, "1", "0.01",
          sampleArbDetails.exchangeAName, sampleArbDetails.exchangeBName,
          sampleSnapUsdt.amount, sampleSnapBtc.amount, "created", 1⟩]) := by
  have h := legOrderingInvariance sampleReg 0 1 sampleArbDetails
    sampleMMDetails sampleSnapBtc sampleSnapUsdt initState
    (by decide) (Or.inl (by decide)) (Or.inr (by decide))
    (by decide) (Or.inl (by decide)) (Or.inr (by decide))
  exact ⟨h.1, h.2.1⟩

theorem findPaymentState_update_create (st : GlobalState) (ps : PaymentState)
    (T : String) (f : PaymentState → PaymentState)
    (h0 : findPaymentStateByIdRaw st T = none)
    (hid : ps.orderId = T)
    (hf : ∀ p, ((f p).orderId == T) = (p.orderId == T)) :
    findPaymentStateByIdRaw
        (updatePaymentStateById (createPaymentState st ps) T f) T =
      some (f ps) := by
  simp only [findPaymentStateByIdRaw, updatePaymentStateById,
    createPaymentState] at h0 ⊢
  rw [List.map_append, List.find?_append, List.find?_map]
  have hcomp : ((fun p : PaymentState => p.orderId == T) ∘
      (fun p => if p.orderId == T then f p else p)) =
      (fun p : PaymentState => p.orderId == T) := by
    funext q
    simp only [Function.comp_apply]
    by_cases hq : (q.orderId == T) = true
    · rw [if_pos hq, hf q, hq]
    · rw [if_neg hq]
  rw [hcomp, h0]
  have hps : (ps.orderId == T) = true := by rw [hid]; exact beq_self_eq_true T
  simp only [Option.map_none', Option.none_or, List.map_cons, List.map_nil]
  rw [if_pos hps]
  rw [List.find?_cons_of_pos]
  rw [hf ps]
  exact hps

/-- C10: the reconciliation step never compares the second leg's asset with
the first: a second valid transfer in the same asset as the first leg fills
leg 2 and creates a strategy order whose `balanceA` and `balanceB` are the two
transfer amounts of that single asset, for both listeners. -/
theorem sameAssetSecondLeg (reg : AssetRegistry) (n1 n2 : Nat)
    (d : ArbitrageMemoDetails) (e : MarketMakingMemoDetails)
    (s1 s2 : SafeSnapshot) (st : GlobalState)
    (hsame : s2.asset_id = s1.asset_id)
    (hA0 : findPaymentStateByIdRaw st d.traceId = none)
    (hA1 : assetMatches reg d.symbol s1.asset_id)
    (hM0 : findPaymentStateByIdRaw st e.traceId = none)
    (hM1 : assetMatches reg e.symbol s1.asset_id) :
    (findPaymentStateByIdRaw
        (handleArbitrageCreate reg n2 d s2
          (handleArbitrageCreate reg n1 d s1 st)) d.traceId =
      some
        { orderId := d.traceId
          type := "arbitrage"
          symbol := d.symbol
          firstAssetId := s1.asset_id
          firstAssetAmount := s1.amount
          firstSnapshotId := s1.snapshot_id
          createdAt := n1
          updatedAt := n2
          secondAssetId := some s1.asset_id
          secondAssetAmount := some s2.amount
          secondSnapshotId := some s2.snapshot_id }) ∧
    ((handleArbitrageCreate reg n2 d s2
        (handleArbitrageCreate reg n1 d s1 st)).arbitrageOrders =
      st.arbitrageOrders ++
        [⟨d.traceId, s2.opponent_id, d.symbol, "1", "0.01", d.exchangeAName,
          d.exchangeBName, s1.amount, s2.amount, "created", n2⟩]) ∧
    (findPaymentStateByIdRaw
        (handleMarketMakingCreate reg n2 e s2
          (handleMarketMakingCreate reg n1 e s1 st)) e.traceId =
      some
        { orderId := e.traceId
          type := "market_making"
          symbol := e.symbol
          firstAssetId := s1.asset_id
          firstAssetAmount := s1.amount
          firstSnapshotId := s1.snapshot_id
          createdAt := n1
          updatedAt := n2
          secondAssetId := some s1.asset_id
          secondAssetAmount := some s2.amount
          secondSnapshotId := some s2.snapshot_id }) ∧
    ((handleMarketMakingCreate reg n2 e s2
        (handleMarketMakingCreate reg n1 e s1 st)).marketMakingOrders =
      st.marketMakingOrders ++
        [⟨e.traceId, s2.opponent_id, e.symbol, "created", e.exchangeName,
          "0.1", "0.1", "1", "15000", "1", "MID_PRICE", "1", "percentage",
          "0", "0", s1.amount, s2.amount, n2⟩]) := by
  have hA2 : assetMatches reg d.symbol s2.asset_id := by rw [hsame]; exact hA1
  have hM2 : assetMatches reg e.symbol s2.asset_id := by rw [hsame]; exact hM1
  refine ⟨?_, ?_, ?_, ?_⟩
  · rw [arb_seq reg n1 n2 d s1 s2 st hA0 hA1 hA2]
    have h := findPaymentState_update_create st
      { orderId := d.traceId
        type := "arbitrage"
        symbol := d.symbol
        firstAssetId := s1.asset_id
        firstAssetAmount := s1.amount
        firstSnapshotId := s1.snapshot_id
        createdAt := n1
        updatedAt := n1
        secondAssetId := none
        secondAssetAmount := none
        secondSnapshotId := none }
      d.traceId
      (fun p =>
        { p with
          secondAssetId := some s2.asset_id
          secondAssetAmount := some s2.amount
          secondSnapshotId := some s2.snapshot_id
          updatedAt := n2 })
      hA0 rfl (fun p => rfl)
    rw [show findPaymentStateByIdRaw
        (createArbitrage
          (updatePaymentStateById
            (createPaymentState st _) d.traceId _) _) d.traceId =
        findPaymentStateByIdRaw
          (updatePaymentStateById (createPaymentState st _) d.traceId _)
          d.traceId from rfl]
    rw [h, hsame]
  · rw [arb_seq reg n1 n2 d s1 s2 st hA0 hA1 hA2]
    rfl
  · rw [mm_seq reg n1 n2 e s1 s2 st hM0 hM1 hM2]
    have h := findPaymentState_update_create st
      { orderId := e.traceId
        type := "market_making"
        symbol := e.symbol
        firstAssetId := s1.asset_id
        firstAssetAmount := s1.amount
        firstSnapshotId := s1.snapshot_id
        createdAt := n1
        updatedAt := n1
        secondAssetId := none
        secondAssetAmount := none
        secondSnapshotId := none }
      e.traceId
      (fun p =>
        { p with
          secondAssetId := some s2.asset_id
          secondAssetAmount := some s2.amount
          secondSnapshotId := some s2.snapshot_id
          updatedAt := n2 })
      hM0 rfl (fun p => rfl)
    rw [show findPaymentStateByIdRaw
        (createMarketMaking
          (updatePaymentStateById
            (createPaymentState st _) e.traceId _) _) e.traceId =
        findPaymentStateByIdRaw
          (updatePaymentStateById (createPaymentState st _) e.traceId _)
          e.traceId from rfl]
    rw [h, hsame]
  · rw [mm_seq reg n1 n2 e s1 s2 st hM0 hM1 hM2]
    rfl

theorem handleArb_snapshotsTable (reg : AssetRegistry) (now : Nat)
    (d : ArbitrageMemoDetails) (s : SafeSnapshot) (st : GlobalState) :
    (handleArbitrageCreate reg now d s st).snapshotsTable =
      st.snapshotsTable := by
  simp only [handleArbitrageCreate]
  split
  · rfl
  · split
    · rfl
    · split <;> rfl

theorem handleMM_snapshotsTable (reg : AssetRegistry) (now : Nat)
    (d : MarketMakingMemoDetails) (s : SafeSnapshot) (st : GlobalState) :
    (handleMarketMakingCreate reg now d s st).snapshotsTable =
      st.snapshotsTable := by
  simp only [handleMarketMakingCreate]
  split
  · rfl
  · split
    · rfl
    · split <;> rfl

theorem dispatchMemo_snapshotsTable (reg : AssetRegistry)
    (decs : MemoDecoders) (now : Nat) (s : SafeSnapshot) (st : GlobalState)
    (dm : String) :
    (dispatchMemo reg decs now s st dm).snapshotsTable = st.snapshotsTable := by
  simp only [dispatchMemo]
  split
  · split <;> rfl
  · split
    · split
      · rfl
      · apply handleArb_snapshotsTable
    · split
      · split
        · rfl
        · apply handleMM_snapshotsTable
      · rfl

theorem createSnapshotSvc_snapshotsTable (ok : Bool) (st : GlobalState)
    (s : SafeSnapshot) :
    (createSnapshotSvc ok st s).snapshotsTable =
      if ok then st.snapshotsTable ++ [s.snapshot_id]
      else st.snapshotsTable := by
  simp only [createSnapshotSvc]
  split <;> rfl

theorem checkSnapshotExist_false (st : GlobalState) (id : String)
    (hfresh : id ∉ st.snapshotsTable) :
    checkSnapshotExist st id = false := by
  simp [checkSnapshotExist, hfresh]

theorem checkSnapshotExist_true (st : GlobalState) (id : String)
    (hmem : id ∈ st.snapshotsTable) :
    checkSnapshotExist st id = true := by
  simp [checkSnapshotExist, hmem]

theorem handleSnapshot_exist (reg : AssetRegistry) (decs : MemoDecoders)
    (ok : Bool) (now : Nat) (s : SafeSnapshot) (st : GlobalState)
    (hmem : s.snapshot_id ∈ st.snapshotsTable) :
    handleSnapshot reg decs ok now s st = st := by
  simp [handleSnapshot, checkSnapshotExist_true st s.snapshot_id hmem]

theorem handleSnapshot_table (reg : AssetRegistry) (decs : MemoDecoders)
    (now : Nat) (s : SafeSnapshot) (st : GlobalState)
    (hfresh : s.snapshot_id ∉ st.snapshotsTable) :
    (handleSnapshot reg decs true now s st).snapshotsTable =
      st.snapshotsTable ++ [s.snapshot_id] := by
  have hex := checkSnapshotExist_false st s.snapshot_id hfresh
  simp only [handleSnapshot, hex]
  rw [if_neg Bool.false_ne_true]
  split
  · rw [createSnapshotSvc_snapshotsTable, if_pos rfl]
  · split
    · rw [createSnapshotSvc_snapshotsTable, if_pos rfl]
    · rw [createSnapshotSvc_snapshotsTable, if_pos rfl,
        dispatchMemo_snapshotsTable]

/-- C4: processing an unseen transfer archives it exactly once whatever branch
is taken, and processing the same transfer a second time is a no-op — the
dedup check finds the marker written by the first run and returns the state
unchanged, so twice equals once. -/
theorem processTwiceEqualsOnce (reg : AssetRegistry) (decs : MemoDecoders)
    (n1 n2 : Nat) (s : SafeSnapshot) (st : GlobalState)
    (hfresh : s.snapshot_id ∉ st.snapshotsTable) :
    List.count s.snapshot_id
        (handleSnapshot reg decs true n1 s st).snapshotsTable = 1 ∧
    handleSnapshot reg decs true n2 s (handleSnapshot reg decs true n1 s st) =
      handleSnapshot reg decs true n1 s st := by
  have htab := handleSnapshot_table reg decs n1 s st hfresh
  constructor
  · rw [htab, List.count_append, List.count_eq_zero.mpr hfresh,
      List.count_singleton_self]
  · apply handleSnapshot_exist
    rw [htab]
    exact List.mem_append_right _ (List.mem_singleton_self _)

/-- Witness for C4 at a concrete input: the BTC transfer is archived once and
reprocessing it leaves the state unchanged. -/
theorem processTwiceEqualsOnce_witness :
    sampleSnapBtc.snapshot_id ∉ initState.snapshotsTable ∧
    (List.count sampleSnapBtc.snapshot_id
        (handleSnapshot sampleReg sampleDecs true 0 sampleSnapBtc
          initState).snapshotsTable = 1 ∧
      handleSnapshot sampleReg sampleDecs true 1 sampleSnapBtc
          (handleSnapshot sampleReg sampleDecs true 0 sampleSnapBtc
            initState) =
        handleSnapshot sampleReg sampleDecs true 0 sampleSnapBtc initState) :=
  ⟨by decide,
    processTwiceEqualsOnce sampleReg sampleDecs 0 1 sampleSnapBtc initState
      (by decide)⟩

theorem dispatchMemo_sp_none (reg : AssetRegistry) (decs : MemoDecoders)
    (now : Nat) (s : SafeSnapshot) (st : GlobalState) (dm : String)
    (h : dm.data.take 2 = "SP".data)
    (hd : decs.decodeSpotMemo dm = none) :
    dispatchMemo reg decs now s st dm = st := by
  simp only [dispatchMemo]
  rw [if_pos h, hd]

theorem dispatchMemo_sp_some (reg : AssetRegistry) (decs : MemoDecoders)
    (now : Nat) (s : SafeSnapshot) (st : GlobalState) (dm : String)
    (det : SpotMemoDetails)
    (h : dm.data.take 2 = "SP".data)
    (hd : decs.decodeSpotMemo dm = some det) :
    dispatchMemo reg decs now s st dm =
      { st with spotEvents := st.spotEvents ++ [(det, s)] } := by
  simp only [dispatchMemo]
  rw [if_pos h, hd]

theorem dispatchMemo_ar_none (reg : AssetRegistry) (decs : MemoDecoders)
    (now : Nat) (s : SafeSnapshot) (st : GlobalState) (dm : String)
    (h : dm.data.take 2 = "AR".data)
    (hd : decs.decodeArbitrageMemo dm = none) :
    dispatchMemo reg decs now s st dm = st := by
  have hsp : dm.data.take 2 ≠ "SP".data := by rw [h]; decide
  simp only [dispatchMemo]
  rw [if_neg hsp, if_pos h, hd]

theorem dispatchMemo_ar_some (reg : AssetRegistry) (decs : MemoDecoders)
    (now : Nat) (s : SafeSnapshot) (st : GlobalState) (dm : String)
    (det : ArbitrageMemoDetails)
    (h : dm.data.take 2 = "AR".data)
    (hd : decs.decodeArbitrageMemo dm = some det) :
    dispatchMemo reg decs now s st dm =
      handleArbitrageCreate reg now det s st := by
  have hsp : dm.data.take 2 ≠ "SP".data := by rw [h]; decide
  simp only [dispatchMemo]
  rw [if_neg hsp, if_pos h, hd]

theorem dispatchMemo_mm_none (reg : AssetRegistry) (decs : MemoDecoders)
    (now : Nat) (s : SafeSnapshot) (st : GlobalState) (dm : String)
    (h : dm.data.take 2 = "MM".data)
    (hd : decs.decodeMarketMakingMemo dm = none) :
    dispatchMemo reg decs now s st dm = st := by
  have hsp : dm.data.take 2 ≠ "SP".data := by rw [h]; decide
  have har : dm.data.take 2 ≠ "AR".data := by rw [h]; decide
  simp only [dispatchMemo]
  rw [if_neg hsp, if_neg har, if_pos h, hd]

theorem dispatchMemo_mm_some (reg : AssetRegistry) (decs : MemoDecoders)
    (now : Nat) (s : SafeSnapshot) (st : GlobalState) (dm : String)
    (det : MarketMakingMemoDetails)
    (h : dm.data.take 2 = "MM".data)
    (hd : decs.decodeMarketMakingMemo dm = some det) :
    dispatchMemo reg decs now s st dm =
      handleMarketMakingCreate reg now det s st := by
  have hsp : dm.data.take 2 ≠ "SP".data := by rw [h]; decide
  have har : dm.data.take 2 ≠ "AR".data := by rw [h]; decide
  simp only [dispatchMemo]
  rw [if_neg hsp, if_neg har, if_pos h, hd]

theorem dispatchMemo_other (reg : AssetRegistry) (decs : MemoDecoders)
    (now : Nat) (s : SafeSnapshot) (st : GlobalState) (dm : String)
    (h1 : dm.data.take 2 ≠ "SP".data)
    (h2 : dm.data.take 2 ≠ "AR".data)
    (h3 : dm.data.take 2 ≠ "MM".data) :
    dispatchMemo reg decs now s st dm = st := by
  simp only [dispatchMemo]
  rw [if_neg h1, if_neg h2, if_neg h3]

theorem handleSnapshot_empty_memo (reg : AssetRegistry) (decs : MemoDecoders)
    (now : Nat) (s : SafeSnapshot) (st : GlobalState)
    (hfresh : s.snapshot_id ∉ st.snapshotsTable)
    (hm : s.memo = none ∨ s.memo = some "") :
    handleSnapshot reg decs true now s st =
      { st with snapshotsTable := st.snapshotsTable ++ [s.snapshot_id] } := by
  have hex := checkSnapshotExist_false st s.snapshot_id hfresh
  rcases hm with hm | hm <;>
    simp [handleSnapshot, hex, hm, createSnapshotSvc]

theorem handleSnapshot_decoding (reg : AssetRegistry) (decs : MemoDecoders)
    (now : Nat) (s : SafeSnapshot) (st : GlobalState) (m : String)
    (hfresh : s.snapshot_id ∉ st.snapshotsTable)
    (hm : s.memo = some m) (hm0 : m ≠ "") :
    handleSnapshot reg decs true now s st =
      createSnapshotSvc true
        (dispatchMemo reg decs now s st (decodedMemoOf m)) s := by
  have hex := checkSnapshotExist_false st s.snapshot_id hfresh
  simp only [handleSnapshot, hex, hm]
  rw [if_neg Bool.false_ne_true, if_neg hm0]

/-- C5: the memo pipeline base64-decodes the hex-decoded memo and selects the
instruction kind from the first two characters of the result; an absent or
empty memo, an unrecognized prefix, or a per-kind parse failure yields no
instruction and the transfer is archived with nothing else changed (no
refund, no payment-state or order change); a successful SP / AR / MM parse
dispatches to the spot event or the matching listener before archiving. -/
theorem memoDecodePipeline (reg : AssetRegistry) (decs : MemoDecoders)
    (now : Nat) (s : SafeSnapshot) (st : GlobalState)
    (hfresh : s.snapshot_id ∉ st.snapshotsTable) :
    ((s.memo = none ∨ s.memo = some "") →
      handleSnapshot reg decs true now s st =
        { st with
          snapshotsTable := st.snapshotsTable ++ [s.snapshot_id] }) ∧
    (∀ m, s.memo = some m → m ≠ "" →
      (decodedMemoOf m).data.take 2 ≠ "SP".data →
      (decodedMemoOf m).data.take 2 ≠ "AR".data →
      (decodedMemoOf m).data.take 2 ≠ "MM".data →
      handleSnapshot reg decs true now s st =
        { st with
          snapshotsTable := st.snapshotsTable ++ [s.snapshot_id] }) ∧
    (∀ m, s.memo = some m → m ≠ "" →
      (decodedMemoOf m).data.take 2 = "SP".data →
      (decs.decodeSpotMemo (decodedMemoOf m) = none →
        handleSnapshot reg decs true now s st =
          { st with
            snapshotsTable := st.snapshotsTable ++ [s.snapshot_id] }) ∧
      (∀ det, decs.decodeSpotMemo (decodedMemoOf m) = some det →
        handleSnapshot reg decs true now s st =
          { st with
            spotEvents := st.spotEvents ++ [(det, s)]
            snapshotsTable := st.snapshotsTable ++ [s.snapshot_id] })) ∧
    (∀ m, s.memo = some m → m ≠ "" →
      (decodedMemoOf m).data.take 2 = "AR".data →
      (decs.decodeArbitrageMemo (decodedMemoOf m) = none →
        handleSnapshot reg decs true now s st =
          { st with
            snapshotsTable := st.snapshotsTable ++ [s.snapshot_id] }) ∧
      (∀ det, decs.decodeArbitrageMemo (decodedMemoOf m) = some det →
        handleSnapshot reg decs true now s st =
          createSnapshotSvc true (handleArbitrageCreate reg now det s st) s)) ∧
    (∀ m, s.memo = some m → m ≠ "" →
      (decodedMemoOf m).data.take 2 = "MM".data →
      (decs.decodeMarketMakingMemo (decodedMemoOf m) = none →
        handleSnapshot reg decs true now s st =
          { st with
            snapshotsTable := st.snapshotsTable ++ [s.snapshot_id] }) ∧
      (∀ det, decs.decodeMarketMakingMemo (decodedMemoOf m) = some det →
        handleSnapshot reg decs true now s st =
          createSnapshotSvc true
            (handleMarketMakingCreate reg now det s st) s)) := by
  refine ⟨?_, ?_, ?_, ?_, ?_⟩
  · exact handleSnapshot_empty_memo reg decs now s st hfresh
  · intro m hm hm0 h1 h2 h3
    rw [handleSnapshot_decoding reg decs now s st m hfresh hm hm0,
      dispatchMemo_other reg decs now s st _ h1 h2 h3]
    rfl
  · intro m hm hm0 h
    constructor
    · intro hd
      rw [handleSnapshot_decoding reg decs now s st m hfresh hm hm0,
        dispatchMemo_sp_none reg decs now s st _ h hd]
      rfl
    · intro det hd
      rw [handleSnapshot_decoding reg decs now s st m hfresh hm hm0,
        dispatchMemo_sp_some reg decs now s st _ det h hd]
      rfl
  · intro m hm hm0 h
    constructor
    · intro hd
      rw [handleSnapshot_decoding reg decs now s st m hfresh hm hm0,
        dispatchMemo_ar_none reg decs now s st _ h hd]
      rfl
    · intro det hd
      rw [handleSnapshot_decoding reg decs now s st m hfresh hm hm0,
        dispatchMemo_ar_some reg decs now s st _ det h hd]
  · intro m hm hm0 h
    constructor
    · intro hd
      rw [handleSnapshot_decoding reg decs now s st m hfresh hm hm0,
        dispatchMemo_mm_none reg decs now s st _ h hd]
      rfl
    · intro det hd
      rw [handleSnapshot_decoding reg decs now s st m hfresh hm hm0,
        dispatchMemo_mm_some reg decs now s st _ det h hd]

/-- Witness for C5 at concrete inputs: a memo decoding to the unknown prefix
`XXtest` archives the transfer and changes nothing else, and the memo decoding
to `ARtest` dispatches to the arbitrage listener before archiving. -/
theorem memoDecodePipeline_witness :
    (decodedMemoOf "574668305a584e30").data.take 2 ≠ "SP".data ∧
    handleSnapshot sampleReg sampleDecs true 0 sampleSnapUnknown initState =
      { initState with
        snapshotsTable :=
          initState.snapshotsTable ++ [sampleSnapUnknown.snapshot_id] } ∧
    handleSnapshot sampleReg sampleDecs true 0 sampleSnapBtc initState =
      createSnapshotSvc true
        (handleArbitrageCreate sampleReg 0 sampleArbDetails sampleSnapBtc
          initState) sampleSnapBtc :=
  ⟨by decide,
    (memoDecodePipeline sampleReg sampleDecs 0 sampleSnapUnknown initState
          (by decide)).2.1
      "574668305a584e30" rfl (by decide) (by decide) (by decide) (by decide),
    ((memoDecodePipeline sampleReg sampleDecs 0 sampleSnapBtc initState
            (by decide)).2.2.2.1
        "51564a305a584e30" rfl (by decide) (by decide)).2
      sampleArbDetails (by decide)⟩

/-- C9: when the requested amount exceeds the total unspent balance of the
asset, `sendMixinTx` logs `Insufficient fund` and returns `undefined` — no
transaction is submitted and no error is raised — and `refund`, which discards
`sendMixinTx`'s return value anyway, completes exactly as a successful refund
does, leaving only the error log behind. -/
theorem insufficientBalanceRefundSilent (ms : MixinState) (s : SafeSnapshot)
    (hlow : getTotalBalanceFromOutputs (safeOutputs ms s.asset_id) <
      s.amount) :
    sendMixinTx ms s.opponent_id s.asset_id s.amount =
      ({ ms with errorLogs := ms.errorLogs + 1 }, none) ∧
    refund ms s = { ms with errorLogs := ms.errorLogs + 1 } := by
  have h : sendMixinTx ms s.opponent_id s.asset_id s.amount =
      ({ ms with errorLogs := ms.errorLogs + 1 }, none) := by
    simp only [sendMixinTx]
    rw [if_pos hlow]
  refine ⟨h, ?_⟩
  simp only [refund]
  rw [h]

/-- Witness for C9 at a concrete input: with no unspent outputs, refunding the
5-ETH snapshot submits nothing and only logs. -/
theorem insufficientBalanceRefundSilent_witness :
    getTotalBalanceFromOutputs
        (safeOutputs sampleEmptyLedger sampleSnapEth.asset_id) <
      sampleSnapEth.amount ∧
    (sendMixinTx sampleEmptyLedger sampleSnapEth.opponent_id
        sampleSnapEth.asset_id sampleSnapEth.amount =
      ({ sampleEmptyLedger with
          errorLogs := sampleEmptyLedger.errorLogs + 1 }, none) ∧
    refund sampleEmptyLedger sampleSnapEth =
      { sampleEmptyLedger with
        errorLogs := sampleEmptyLedger.errorLogs + 1 }) :=
  ⟨by decide,
    insufficientBalanceRefundSilent sampleEmptyLedger sampleSnapEth
      (by decide)⟩

/-- C7: a repository failure while writing the dedup marker is swallowed by
`createSnapshot` instead of propagating: at a concrete AR-instruction
snapshot with a mismatched asset, processing with a failing store completes
normally (only an error log, refund already issued, marker unwritten), and the
next cycle therefore reprocesses the transfer and issues the refund a second
time — the error never aborts the transfer's processing. -/
theorem storeErrorSwallowed :
    handleSnapshot sampleReg sampleDecs false 0 sampleSnapEth initState =
      { initState with
        refunds := [⟨"user-1", "eth-id", 5⟩]
        errorLogs := 1 } ∧
    sampleSnapEth.snapshot_id ∉
      (handleSnapshot sampleReg sampleDecs false 0 sampleSnapEth
        initState).snapshotsTable ∧
    (handleSnapshot sampleReg sampleDecs true 1 sampleSnapEth
        (handleSnapshot sampleReg sampleDecs false 0 sampleSnapEth
          initState)).refunds.length = 2 := by
  refine ⟨by decide, by decide, by decide⟩

/-- C8: the poll cycle returns while every snapshot of its batch is still
being handled (`forEach` with an async callback does not await), and the cron
tick has no in-flight guard, so a second cycle's handlers accumulate next to
the first's instead of the new cycle being skipped. -/
theorem pollCycleNotSerialized :
    (fetchAndProcessSnapshots (some [sampleSnapBtc])).pendingHandlers ≠ [] ∧
    (handleSnapshotsTick true
        (fetchAndProcessSnapshots (some [sampleSnapBtc])).pendingHandlers
        (some [sampleSnapMM])).length = 2 := by
  refine ⟨by decide, by decide⟩

theorem ordersFor_createArbitrage (st : GlobalState) (o : ArbitrageOrder)
    (T : String) :
    ordersFor (createArbitrage st o) T =
      ordersFor st T + (if o.orderId == T then 1 else 0) := by
  simp only [ordersFor, createArbitrage, List.countP_append, List.countP_cons,
    List.countP_nil]
  cases hb : (o.orderId == T) <;> simp [hb] <;> omega

theorem ordersFor_createMarketMaking (st : GlobalState)
    (o : MarketMakingOrder) (T : String) :
    ordersFor (createMarketMaking st o) T =
      ordersFor st T + (if o.orderId == T then 1 else 0) := by
  simp only [ordersFor, createMarketMaking, List.countP_append,
    List.countP_cons, List.countP_nil]
  cases hb : (o.orderId == T) <;> simp [hb] <;> omega

/-- Witness for C10 at concrete inputs: two BTC transfers for the same trace
yield a completed payment state and an arbitrage order denominated entirely in
BTC. -/
theorem sameAssetSecondLeg_witness :
    sampleSnapBtc2.asset_id = sampleSnapBtc.asset_id ∧
    findPaymentStateByIdRaw
        (handleArbitrageCreate sampleReg 1 sampleArbDetails sampleSnapBtc2
          (handleArbitrageCreate sampleReg 0 sampleArbDetails sampleSnapBtc
            initState)) sampleArbDetails.traceId =
      some
        { orderId := sampleArbDetails.traceId
          type := "arbitrage"
          symbol := sampleArbDetails.symbol
          firstAssetId := sampleSnapBtc.asset_id
          firstAssetAmount := sampleSnapBtc.amount
          firstSnapshotId := sampleSnapBtc.snapshot_id
          createdAt := 0
          updatedAt := 1
          secondAssetId := some sampleSnapBtc.asset_id
          secondAssetAmount := some sampleSnapBtc2.amount
          secondSnapshotId := some sampleSnapBtc2.snapshot_id } ∧
    (handleArbitrageCreate sampleReg 1 sampleArbDetails sampleSnapBtc2
        (handleArbitrageCreate sampleReg 0 sampleArbDetails sampleSnapBtc
          initState)).arbitrageOrders =
      initState.arbitrageOrders ++
        [⟨sampleArbDetails.traceId, sampleSnapBtc2.opponent_id,
          sampleArbDetails.symbol, "1", "0.01",
          sampleArbDetails.exchangeAName, sampleArbDetails.exchangeBName,
          sampleSnapBtc.amount, sampleSnapBtc2.amount, "created", 1⟩] := by
  have h := sameAssetSecondLeg sampleReg 0 1 sampleArbDetails sampleMMDetails
    sampleSnapBtc sampleSnapBtc2 initState (by decide) (by decide)
    (Or.inl (by decide)) (by decide) (Or.inl (by decide))
  exact ⟨by decide, h.1, h.2.1⟩

theorem findPaymentState_update (st : GlobalState) (T T' : String)
    (f : PaymentState → PaymentState)
    (hfid : ∀ p, (f p).orderId = p.orderId) :
    findPaymentStateByIdRaw (updatePaymentStateById st T f) T' =
      (findPaymentStateByIdRaw st T').map
        (fun p => if p.orderId == T then f p else p) := by
  simp only [findPaymentStateByIdRaw, updatePaymentStateById]
  rw [List.find?_map]
  rw [show ((fun p : PaymentState => p.orderId == T') ∘
      (fun p => if p.orderId == T then f p else p)) =
      (fun p : PaymentState => p.orderId == T') from ?_]
  funext q
  simp only [Function.comp_apply]
  by_cases hq : (q.orderId == T) = true
  · rw [if_pos hq, hfid q]
  · rw [if_neg hq]

theorem orderInv_createPaymentState (st : GlobalState) (ps : PaymentState)
    (h : OrderInv st) : OrderInv (createPaymentState st ps) := by
  intro T
  have hord : ordersFor (createPaymentState st ps) T = ordersFor st T := rfl
  constructor
  · rw [hord]
    exact (h T).1
  · intro h1
    rw [hord] at h1
    obtain ⟨ps0, hf0, hs0⟩ := (h T).2 h1
    refine ⟨ps0, ?_, hs0⟩
    simp only [findPaymentStateByIdRaw, createPaymentState] at hf0 ⊢
    rw [List.find?_append, hf0]
    rfl

theorem orderInv_fill_arb (st : GlobalState) (T : String) (ps : PaymentState)
    (o : ArbitrageOrder) (f : PaymentState → PaymentState)
    (h : OrderInv st)
    (hfind : findPaymentStateByIdRaw st T = some ps)
    (hsec : ps.secondAssetId = none)
    (ho : o.orderId = T)
    (hfid : ∀ p, (f p).orderId = p.orderId)
    (hfsome : ∀ p, ((f p).secondAssetId).isSome = true) :
    OrderInv (createArbitrage (updatePaymentStateById st T f) o) := by
  intro T'
  have hordA : ordersFor (createArbitrage (updatePaymentStateById st T f) o)
      T' = ordersFor st T' + (if o.orderId == T' then 1 else 0) := by
    rw [ordersFor_createArbitrage]
    rfl
  have hfindU : ∀ T'',
      findPaymentStateByIdRaw
          (createArbitrage (updatePaymentStateById st T f) o) T'' =
        (findPaymentStateByIdRaw st T'').map
          (fun p => if p.orderId == T then f p else p) := by
    intro T''
    exact findPaymentState_update st T T'' f hfid
  by_cases hT : T' = T
  · subst hT
    have hps_beq : (ps.orderId == T') = true := by
      have hf := hfind
      simp only [findPaymentStateByIdRaw] at hf
      simpa using List.find?_some hf
    have hzero : ordersFor st T' = 0 := by
      by_contra hnz
      obtain ⟨ps0, hf0, hs0⟩ :=
        (h T').2 (Nat.one_le_iff_ne_zero.mpr hnz)
      rw [hfind] at hf0
      cases Option.some.inj hf0
      rw [hsec] at hs0
      exact Bool.false_ne_true hs0
    constructor
    · rw [hordA, hzero]
      split <;> omega
    · intro _
      refine ⟨f ps, ?_, hfsome ps⟩
      rw [hfindU T', hfind]
      simp only [Option.map_some']
      rw [if_pos hps_beq]
  · have hobeq : (o.orderId == T') = false := by
      rw [ho]
      exact beq_eq_false_iff_ne.mpr (fun hEq => hT hEq.symm)
    constructor
    · rw [hordA, hobeq]
      simpa using (h T').1
    · intro h1
      rw [hordA, hobeq] at h1
      simp at h1
      obtain ⟨ps0, hf0, hs0⟩ := (h T').2 h1
      refine ⟨if ps0.orderId == T then f ps0 else ps0, ?_, ?_⟩
      · rw [hfindU T', hf0]
        rfl
      · by_cases hb : (ps0.orderId == T) = true
        · rw [if_pos hb]
          exact hfsome ps0
        · rw [if_neg hb]
          exact hs0

theorem orderInv_fill_mm (st : GlobalState) (T : String) (ps : PaymentState)
    (o : MarketMakingOrder) (f : PaymentState → PaymentState)
    (h : OrderInv st)
    (hfind : findPaymentStateByIdRaw st T = some ps)
    (hsec : ps.secondAssetId = none)
    (ho : o.orderId = T)
    (hfid : ∀ p, (f p).orderId = p.orderId)
    (hfsome : ∀ p, ((f p).secondAssetId).isSome = true) :
    OrderInv (createMarketMaking (updatePaymentStateById st T f) o) := by
  intro T'
  have hordA : ordersFor (createMarketMaking (updatePaymentStateById st T f) o)
      T' = ordersFor st T' + (if o.orderId == T' then 1 else 0) := by
    rw [ordersFor_createMarketMaking]
    rfl
  have hfindU : ∀ T'',
      findPaymentStateByIdRaw
          (createMarketMaking (updatePaymentStateById st T f) o) T'' =
        (findPaymentStateByIdRaw st T'').map
          (fun p => if p.orderId == T then f p else p) := by
    intro T''
    exact findPaymentState_update st T T'' f hfid
  by_cases hT : T' = T
  · subst hT
    have hps_beq : (ps.orderId == T') = true := by
      have hf := hfind
      simp only [findPaymentStateByIdRaw] at hf
      simpa using List.find?_some hf
    have hzero : ordersFor st T' = 0 := by
      by_contra hnz
      obtain ⟨ps0, hf0, hs0⟩ :=
        (h T').2 (Nat.one_le_iff_ne_zero.mpr hnz)
      rw [hfind] at hf0
      cases Option.some.inj hf0
      rw [hsec] at hs0
      exact Bool.false_ne_true hs0
    constructor
    · rw [hordA, hzero]
      split <;> omega
    · intro _
      refine ⟨f ps, ?_, hfsome ps⟩
      rw [hfindU T', hfind]
      simp only [Option.map_some']
      rw [if_pos hps_beq]
  · have hobeq : (o.orderId == T') = false := by
      rw [ho]
      exact beq_eq_false_iff_ne.mpr (fun hEq => hT hEq.symm)
    constructor
    · rw [hordA, hobeq]
      simpa using (h T').1
    · intro h1
      rw [hordA, hobeq] at h1
      simp at h1
      obtain ⟨ps0, hf0, hs0⟩ := (h T').2 h1
      refine ⟨if ps0.orderId == T then f ps0 else ps0, ?_, ?_⟩
      · rw [hfindU T', hf0]
        rfl
      · by_cases hb : (ps0.orderId == T) = true
        · rw [if_pos hb]
          exact hfsome ps0
        · rw [if_neg hb]
          exact hs0

theorem orderInv_arb (reg : AssetRegistry) (now : Nat)
    (d : ArbitrageMemoDetails) (s : SafeSnapshot) (st : GlobalState)
    (h : OrderInv st) :
    OrderInv (handleArbitrageCreate reg now d s st) := by
  by_cases hc : (reg d.symbol).1 ≠ some s.asset_id ∧
      (reg d.symbol).2 ≠ some s.asset_id
  · rw [handleArb_mismatch reg now d s st hc.1 hc.2]
    exact h
  · have hv : assetMatches reg d.symbol s.asset_id := by
      rcases not_and_or.mp hc with h1 | h1
      · exact Or.inl (not_not.mp h1)
      · exact Or.inr (not_not.mp h1)
    cases hfind : findPaymentStateByIdRaw st d.traceId with
    | none =>
      rw [handleArb_leg1 reg now d s st hv hfind]
      exact orderInv_createPaymentState st _ h
    | some ps =>
      by_cases hsec : ps.secondAssetId = none
      · rw [handleArb_leg2 reg now d s st ps hv hfind hsec]
        exact orderInv_fill_arb st d.traceId ps _ _ h hfind hsec rfl
          (fun p => rfl) (fun p => rfl)
      · rw [handleArb_complete reg now d s st ps hv hfind hsec]
        exact h

theorem orderInv_mm (reg : AssetRegistry) (now : Nat)
    (d : MarketMakingMemoDetails) (s : SafeSnapshot) (st : GlobalState)
    (h : OrderInv st) :
    OrderInv (handleMarketMakingCreate reg now d s st) := by
  by_cases hc : (reg d.symbol).1 ≠ some s.asset_id ∧
      (reg d.symbol).2 ≠ some s.asset_id
  · rw [handleMM_mismatch reg now d s st hc.1 hc.2]
    exact h
  · have hv : assetMatches reg d.symbol s.asset_id := by
      rcases not_and_or.mp hc with h1 | h1
      · exact Or.inl (not_not.mp h1)
      · exact Or.inr (not_not.mp h1)
    cases hfind : findPaymentStateByIdRaw st d.traceId with
    | none =>
      rw [handleMM_leg1 reg now d s st hv hfind]
      exact orderInv_createPaymentState st _ h
    | some ps =>
      by_cases hsec : ps.secondAssetId = none
      · rw [handleMM_leg2 reg now d s st ps hv hfind hsec]
        exact orderInv_fill_mm st d.traceId ps _ _ h hfind hsec rfl
          (fun p => rfl) (fun p => rfl)
      · rw [handleMM_complete reg now d s st ps hv hfind hsec]
        exact h

theorem orderInv_dispatch (reg : AssetRegistry) (decs : MemoDecoders)
    (now : Nat) (s : SafeSnapshot) (st : GlobalState) (dm : String)
    (h : OrderInv st) :
    OrderInv (dispatchMemo reg decs now s st dm) := by
  simp only [dispatchMemo]
  split
  · split
    · exact h
    · exact h
  · split
    · split
      · exact h
      · exact orderInv_arb reg now _ s st h
    · split
      · split
        · exact h
        · exact orderInv_mm reg now _ s st h
      · exact h

theorem orderInv_createSnapshotSvc (ok : Bool) (st : GlobalState)
    (s : SafeSnapshot) (h : OrderInv st) :
    OrderInv (createSnapshotSvc ok st s) := by
  simp only [createSnapshotSvc]
  split
  · exact h
  · exact h

theorem orderInv_handleSnapshot (reg : AssetRegistry) (decs : MemoDecoders)
    (ok : Bool) (now : Nat) (s : SafeSnapshot) (st : GlobalState)
    (h : OrderInv st) :
    OrderInv (handleSnapshot reg decs ok now s st) := by
  simp only [handleSnapshot]
  split
  · exact h
  · split
    · exact orderInv_createSnapshotSvc ok st s h
    · split
      · exact orderInv_createSnapshotSvc ok st s h
      · exact orderInv_createSnapshotSvc ok _ s
          (orderInv_dispatch reg decs now s st _ h)

theorem orderInv_initState : OrderInv initState := by
  intro T
  constructor
  · simp [ordersFor, initState]
  · intro h1
    simp [ordersFor, initState] at h1

theorem orderInv_runSteps (reg : AssetRegistry) (decs : MemoDecoders)
    (steps : List Step) (st : GlobalState) (h : OrderInv st) :
    OrderInv (runSteps reg decs steps st) := by
  induction steps generalizing st with
  | nil => exact h
  | cons e rest ih =>
    have hstep : runSteps reg decs (e :: rest) st =
        runSteps reg decs rest (applyStep reg decs e st) := rfl
    rw [hstep]
    apply ih
    cases e with
    | arb now d s => exact orderInv_arb reg now d s st h
    | mm now d s => exact orderInv_mm reg now d s st h
    | snap ok now s => exact orderInv_handleSnapshot reg decs ok now s st h

/-- C1: along any sequence of pipeline events from the empty state, at most
one strategy order ever exists per trace ID; and once a trace ID's payment
state has its second leg set, a further valid transfer for it changes nothing
at all — neither the payment state nor the order tables — in either
listener. -/
theorem atMostOneOrderPerTrace (reg : AssetRegistry) (decs : MemoDecoders)
    (steps : List Step) (T : String) :
    ordersFor (runSteps reg decs steps initState) T ≤ 1 ∧
    (∀ (st : GlobalState) (ps : PaymentState) (now : Nat)
        (d : ArbitrageMemoDetails) (s : SafeSnapshot),
        d.traceId = T →
        findPaymentStateByIdRaw st T = some ps →
        ps.secondAssetId.isSome = true →
        assetMatches reg d.symbol s.asset_id →
        handleArbitrageCreate reg now d s st = st) ∧
    (∀ (st : GlobalState) (ps : PaymentState) (now : Nat)
        (d : MarketMakingMemoDetails) (s : SafeSnapshot),
        d.traceId = T →
        findPaymentStateByIdRaw st T = some ps →
        ps.secondAssetId.isSome = true →
        assetMatches reg d.symbol s.asset_id →
        handleMarketMakingCreate reg now d s st = st) := by
  refine ⟨(orderInv_runSteps reg decs steps initState orderInv_initState T).1,
    ?_, ?_⟩
  · intro st ps now d s htr hfind hsome hv
    rw [← htr] at hfind
    refine handleArb_complete reg now d s st ps hv hfind ?_
    intro hn
    rw [hn] at hsome
    exact Bool.false_ne_true hsome
  · intro st ps now d s htr hfind hsome hv
    rw [← htr] at hfind
    refine handleMM_complete reg now d s st ps hv hfind ?_
    intro hn
    rw [hn] at hsome
    exact Bool.false_ne_true hsome

/-- Witness for C1 at a concrete input: after first leg, second leg and a
third valid transfer for the same trace, exactly one order exists, and the
arbitrage listener leaves a completed trace's state untouched. -/
theorem atMostOneOrderPerTrace_witness :
    ordersFor
        (runSteps sampleReg sampleDecs
          [Step.arb 0 sampleArbDetails sampleSnapBtc,
            Step.arb 1 sampleArbDetails sampleSnapUsdt,
            Step.arb 2 sampleArbDetails sampleSnapBtc] initState)
        "trace-ar" ≤ 1 ∧
    handleArbitrageCreate sampleReg 3 sampleArbDetails sampleSnapUsdt
        sampleCompleteState = sampleCompleteState := by
  have h := atMostOneOrderPerTrace sampleReg sampleDecs
    [Step.arb 0 sampleArbDetails sampleSnapBtc,
      Step.arb 1 sampleArbDetails sampleSnapUsdt,
      Step.arb 2 sampleArbDetails sampleSnapBtc] "trace-ar"
  exact ⟨h.1,
    h.2.1 sampleCompleteState sampleCompletePS 3 sampleArbDetails
      sampleSnapUsdt rfl (by decide) (by decide) (Or.inr (by decide))⟩

end MrMarket
